import Mathlib

/-
Verification of the REST API route-handling layer of an IPFS-cluster node
(api/rest/restapi.go).  The handlers are embedded shallowly: each Go handler
becomes a pure Lean function from its decoded inputs (query parameters,
pre-parsed body/identifier results, and the outcome of the one remote call it
may issue) to the HTTP response it writes plus the list of remote calls it
issued.  Definitions follow the Go source; functions the source imports from
sibling packages that are not part of this tree (the pin-type and
tracker-status tables, peer decoding, the common response writer) are modelled
from the specification and marked as such in their doc comments.
-/

namespace RestApi

/-- Embeds Go's strings.Split with a one-character separator, as used by the
allocations handler on the filter query string: splitting the empty string
yields one empty field, and separators at the edges yield empty fields. -/
def splitOnCharList (c : Char) : List Char → List (List Char)
  | [] => [[]]
  | x :: xs =>
    let r := splitOnCharList c xs
    if x = c then [] :: r
    else
      match r with
      | [] => [[x]]
      | y :: ys => (x :: y) :: ys

/-- Comma split of a string into its fields (strings.Split(s, ",")). -/
def splitComma (s : String) : List String :=
  (splitOnCharList ',' s.data).map (fun cs => String.mk cs)

/-- Modelled from the spec: the pin-type category bit flags of the types
package (not under this tree).  The sentinel for an unrecognized token. -/
def BadType : Nat := 1

/-- Modelled from the spec: the "data" pin-type bit flag. -/
def DataType : Nat := 2

/-- Modelled from the spec: the "meta" pin-type bit flag. -/
def MetaType : Nat := 4

/-- Modelled from the spec: the "clusterdag" pin-type bit flag. -/
def ClusterDAGType : Nat := 8

/-- Modelled from the spec: the "shard" pin-type bit flag. -/
def ShardType : Nat := 16

/-- Modelled from the spec: the "all" mask, the union of every concrete
pin-type category (it does not include the bad sentinel). -/
def AllType : Nat := DataType ||| MetaType ||| ClusterDAGType ||| ShardType

/-- Modelled from the spec: the category table lookup types.PinTypeFromString
(types package, not under this tree).  An unrecognized token yields the bad
sentinel; the empty token means no restriction and yields the all mask. -/
def PinTypeFromString (s : String) : Nat :=
  if s = "data" then DataType
  else if s = "meta" then MetaType
  else if s = "clusterdag" then ClusterDAGType
  else if s = "shard" then ShardType
  else if s = "all" then AllType
  else if s = "" then AllType
  else BadType

/-- The type-filter mask the allocations handler composes from the filter
query string: split on comma, look each token up, OR the results
(restapi.go lines 450 to 454). -/
def typeFilterOfString (s : String) : Nat :=
  (splitComma s).foldl (fun a f => a ||| PinTypeFromString f) 0

/-- Modelled from the spec: the undefined / unfiltered tracker-status mask. -/
def TrackerStatusUndefined : Nat := 0

/-- Modelled from the spec: the tracker-state token table over the states the
spec names (queued, pinning, pinned, error, unpinned); an unrecognized token
contributes the undefined mask. -/
def trackerStatusFromSingle (s : String) : Nat :=
  if s = "queued" then 1
  else if s = "pinning" then 2
  else if s = "pinned" then 4
  else if s = "error" then 8
  else if s = "unpinned" then 16
  else TrackerStatusUndefined

/-- Modelled from the spec: types.TrackerStatusFromString (types package, not
under this tree) follows the same comma-split and OR pattern as the type
filter, over tracker-state tokens; the empty string yields the undefined
mask. -/
def TrackerStatusFromString (s : String) : Nat :=
  (splitComma s).foldl (fun a t => a ||| trackerStatusFromSingle t) 0

/-- A pin record as the handlers see it: its content identifier and its
pin-type bit (types.Pin, fields beyond these are irrelevant to the claims). -/
structure Pin where
  cid : String
  ptype : Nat
deriving DecidableEq

/-- A path-style pin reference (types.PinPath). -/
structure PinPath where
  path : String
deriving DecidableEq

/-- A per-node (local) status record carrying its own peer identifier
(types.PinInfo). -/
structure PinInfo where
  cid : String
  peer : String
  status : Nat
deriving DecidableEq

/-- A cluster-wide (global) status record: a map from peer identifier to the
per-peer record, represented as an association list (types.GlobalPinInfo). -/
structure GlobalPinInfo where
  cid : String
  peerMap : List (String × PinInfo)
deriving DecidableEq

/-- Modelled from the spec: PinInfo.ToGlobal (types package, not under this
tree) synthesizes the one-entry global map keyed by the record's own peer
identifier. -/
def PinInfo.toGlobal (p : PinInfo) : GlobalPinInfo :=
  { cid := p.cid, peerMap := [(p.peer, p)] }

/-- A per-node garbage-collection result carrying the responding peer's
identifier and the collected keys (types.RepoGC). -/
structure RepoGC where
  peer : String
  keys : List String
deriving DecidableEq

/-- The cluster-wide garbage-collection result: a map from peer identifier to
the per-peer result, as an association list (types.GlobalRepoGC). -/
structure GlobalRepoGC where
  peerMap : List (String × RepoGC)
deriving DecidableEq

/-- An HTTP response as the common response writer emits it: status code, the
error carried in the body (if any), and the JSON body value (none when the Go
code passes nil). -/
structure Response (β : Type) where
  status : Nat
  rerr : Option String
  body : Option β
deriving DecidableEq

/-- A handler outcome: the response written plus the remote calls issued, in
order.  κ is the record kept per call (the method name, possibly with the
argument that matters to a claim). -/
structure HOut (β : Type) (κ : Type) where
  resp : Response β
  calls : List κ
deriving DecidableEq

/-- Modelled from the spec: the common API's automatic status policy
(common.SetStatusAutomatically): success maps to 200, a backend error to the
error-derived status, 500 in the generic case. -/
def autoStatus (rerr : Option String) : Nat :=
  match rerr with
  | some _ => 500
  | none => 200

/-- Modelled from the spec: the common response writer SendResponse.  A
concrete code (passed as some code) is used as given; none stands for
common.SetStatusAutomatically and resolves through the automatic policy. -/
def sendResponse {β : Type} (code : Option Nat) (rerr : Option String)
    (body : Option β) : Response β :=
  { status := code.getD (autoStatus rerr), rerr := rerr, body := body }

/-- Modelled from the spec: the known not-found sentinel error text
(state.ErrNotFound, not under this tree); the handlers compare backend error
text against it verbatim. -/
def errNotFoundMsg : String := "not found"

/-- The type-filter application of the allocations handler (restapi.go lines
471 to 483): the all mask returns the list unchanged, any other mask keeps the
pins whose type bit meets the mask. -/
def filterPins (filter : Nat) (pins : List Pin) : List Pin :=
  if filter = AllType then pins
  else pins.filter (fun p => decide (filter &&& p.ptype > 0))

/-- peerAddHandler (restapi.go lines 326 to 353).  bodyDecode is the result of
JSON-decoding the request body into its peer_id field (none on malformed
JSON); decodePeer models peer.Decode (external library): none on an
undecodable identifier.  rpc is the (error, out-parameter) outcome of the
Cluster.PeerAdd call, issued only when both decodes succeed. -/
def peerAddHandler (bodyDecode : Option String) (decodePeer : String → Option String)
    (rpc : Option String × String) : HOut String String :=
  match bodyDecode with
  | none =>
    { resp := sendResponse (some 400) (some "error decoding request body") none,
      calls := [] }
  | some pidStr =>
    match decodePeer pidStr with
    | none =>
      { resp := sendResponse (some 400) (some "error decoding peer_id") none,
        calls := [] }
    | some _ =>
      { resp := sendResponse none rpc.1 (some rpc.2), calls := ["PeerAdd"] }

/-- allocationsHandler (restapi.go lines 448 to 485).  query gives the URL
query parameters; rpc is the (error, out-parameter) outcome of the
Cluster.Pins call.  The composed type filter is checked against the bad
sentinel before the call; after the call the filter is applied to the returned
pin list and the error is forwarded as received. -/
def allocationsHandler (query : String → String) (rpc : Option String × List Pin) :
    HOut (List Pin) String :=
  let filterStr := query "filter"
  let filter := typeFilterOfString filterStr
  if filter = BadType then
    { resp := sendResponse (some 400) (some "invalid filter value") none,
      calls := [] }
  else
    { resp := sendResponse none rpc.1 (some (filterPins filter rpc.2)),
      calls := ["Pins"] }

/-- allocationHandler (restapi.go lines 487 to 504).  parsedCid models
ParseCidOrFail (common package, modelled from the spec: a malformed identifier
is answered 400 before dispatch); rpc is the Cluster.PinGet outcome.  Every
call error is answered 404; on success the automatic path is taken with a nil
error. -/
def allocationHandler (parsedCid : Option Pin) (rpc : Option String × Pin) :
    HOut Pin String :=
  match parsedCid with
  | none =>
    { resp := sendResponse (some 400) (some "error decoding cid") none, calls := [] }
  | some _ =>
    match rpc with
    | (some e, _) =>
      { resp := sendResponse (some 404) (some e) none, calls := ["PinGet"] }
    | (none, pinResp) =>
      { resp := sendResponse none none (some pinResp), calls := ["PinGet"] }

/-- unpinHandler (restapi.go lines 387 to 407).  When the Cluster.Unpin call
fails with exactly the not-found sentinel text, the handler answers 404;
otherwise the (error, out-parameter) pair goes through the automatic path. -/
def unpinHandler (parsedCid : Option Pin) (rpc : Option String × Pin) :
    HOut Pin String :=
  match parsedCid with
  | none =>
    { resp := sendResponse (some 400) (some "error decoding cid") none, calls := [] }
  | some _ =>
    match rpc with
    | (some e, pinObj) =>
      if e = errNotFoundMsg then
        { resp := sendResponse (some 404) (some e) none, calls := ["Unpin"] }
      else
        { resp := sendResponse none (some e) (some pinObj), calls := ["Unpin"] }
    | (none, pinObj) =>
      { resp := sendResponse none none (some pinObj), calls := ["Unpin"] }

/-- unpinPathHandler (restapi.go lines 427 to 446): same sentinel comparison
as unpinHandler over the Cluster.UnpinPath call. -/
def unpinPathHandler (parsedPath : Option PinPath) (rpc : Option String × Pin) :
    HOut Pin String :=
  match parsedPath with
  | none =>
    { resp := sendResponse (some 400) (some "error decoding path") none, calls := [] }
  | some _ =>
    match rpc with
    | (some e, pinObj) =>
      if e = errNotFoundMsg then
        { resp := sendResponse (some 404) (some e) none, calls := ["UnpinPath"] }
      else
        { resp := sendResponse none (some e) (some pinObj), calls := ["UnpinPath"] }
    | (none, pinObj) =>
      { resp := sendResponse none none (some pinObj), calls := ["UnpinPath"] }

/-- pinInfosToGlobal (restapi.go lines 682 to 688): maps every local status
record to its one-entry global form, preserving order and length. -/
def pinInfosToGlobal (pInfos : List PinInfo) : List GlobalPinInfo :=
  pInfos.map PinInfo.toGlobal

/-- repoGCToGlobal (restapi.go lines 674 to 680): wraps a local GC result into
a one-entry global map keyed by the responding peer's identifier (peer.Encode
modelled as the identifier's textual form). -/
def repoGCToGlobal (r : RepoGC) : GlobalRepoGC :=
  { peerMap := [(r.peer, r)] }

/-- statusAllHandler (restapi.go lines 506 to 551).  The status filter is
parsed first; a non-empty string parsing to the undefined mask is rejected 400
with no call.  Otherwise the local query flag picks Cluster.StatusAllLocal (a
list of local records, unified through pinInfosToGlobal) or Cluster.StatusAll;
each call record keeps the method name and the filter mask passed to it. -/
def statusAllHandler (query : String → String)
    (rpcLocal : Option String × List PinInfo)
    (rpcGlobal : Option String × List GlobalPinInfo) :
    HOut (List GlobalPinInfo) (String × Nat) :=
  let loc := query "local"
  let filterStr := query "filter"
  let filter := TrackerStatusFromString filterStr
  if filter = TrackerStatusUndefined ∧ filterStr ≠ "" then
    { resp := sendResponse (some 400) (some "invalid filter value") none,
      calls := [] }
  else if loc = "true" then
    match rpcLocal with
    | (some e, _) =>
      { resp := sendResponse none (some e) none, calls := [("StatusAllLocal", filter)] }
    | (none, pinInfos) =>
      { resp := sendResponse none none (some (pinInfosToGlobal pinInfos)),
        calls := [("StatusAllLocal", filter)] }
  else
    match rpcGlobal with
    | (some e, _) =>
      { resp := sendResponse none (some e) none, calls := [("StatusAll", filter)] }
    | (none, g) =>
      { resp := sendResponse none none (some g), calls := [("StatusAll", filter)] }

/-- statusHandler (restapi.go lines 553 to 582): the local flag picks
Cluster.StatusLocal (whose record is unified through toGlobal) or
Cluster.Status; either outcome goes through the automatic path. -/
def statusHandler (query : String → String) (parsedCid : Option Pin)
    (rpcLocal : Option String × PinInfo)
    (rpcGlobal : Option String × GlobalPinInfo) : HOut GlobalPinInfo String :=
  match parsedCid with
  | none =>
    { resp := sendResponse (some 400) (some "error decoding cid") none, calls := [] }
  | some _ =>
    if query "local" = "true" then
      { resp := sendResponse none rpcLocal.1 (some rpcLocal.2.toGlobal),
        calls := ["StatusLocal"] }
    else
      { resp := sendResponse none rpcGlobal.1 (some rpcGlobal.2),
        calls := ["Status"] }

/-- recoverHandler (restapi.go lines 612 to 641): same local/global choice as
statusHandler over Cluster.RecoverLocal and Cluster.Recover. -/
def recoverHandler (query : String → String) (parsedCid : Option Pin)
    (rpcLocal : Option String × PinInfo)
    (rpcGlobal : Option String × GlobalPinInfo) : HOut GlobalPinInfo String :=
  match parsedCid with
  | none =>
    { resp := sendResponse (some 400) (some "error decoding cid") none, calls := [] }
  | some _ =>
    if query "local" = "true" then
      { resp := sendResponse none rpcLocal.1 (some rpcLocal.2.toGlobal),
        calls := ["RecoverLocal"] }
    else
      { resp := sendResponse none rpcGlobal.1 (some rpcGlobal.2),
        calls := ["Recover"] }

/-- recoverAllHandler (restapi.go lines 584 to 610): the local flag picks
Cluster.RecoverAllLocal (unified through pinInfosToGlobal) or
Cluster.RecoverAll. -/
def recoverAllHandler (query : String → String)
    (rpcLocal : Option String × List PinInfo)
    (rpcGlobal : Option String × List GlobalPinInfo) :
    HOut (List GlobalPinInfo) String :=
  if query "local" = "true" then
    { resp := sendResponse none rpcLocal.1 (some (pinInfosToGlobal rpcLocal.2)),
      calls := ["RecoverAllLocal"] }
  else
    { resp := sendResponse none rpcGlobal.1 (some rpcGlobal.2),
      calls := ["RecoverAll"] }

/-- repoGCHandler (restapi.go lines 643 to 672): the local flag picks
Cluster.RepoGCLocal (unified through repoGCToGlobal) or Cluster.RepoGC; the
handler reads no filter parameter and forwards the result as received. -/
def repoGCHandler (query : String → String)
    (rpcLocal : Option String × RepoGC)
    (rpcGlobal : Option String × GlobalRepoGC) : HOut GlobalRepoGC String :=
  if query "local" = "true" then
    { resp := sendResponse none rpcLocal.1 (some (repoGCToGlobal rpcLocal.2)),
      calls := ["RepoGCLocal"] }
  else
    { resp := sendResponse none rpcGlobal.1 (some rpcGlobal.2),
      calls := ["RepoGC"] }

/-- A sample data pin used by concrete witnesses. -/
def pinD : Pin := { cid := "cid1", ptype := DataType }

/-- A sample meta pin used by concrete witnesses. -/
def pinM : Pin := { cid := "cid2", ptype := MetaType }

/-- A sample shard pin used by concrete witnesses. -/
def pinS : Pin := { cid := "cid3", ptype := ShardType }

/-- A sample pin list used by concrete witnesses. -/
def samplePins : List Pin := [pinD, pinM, pinS]

/-- A sample local status record used by concrete witnesses. -/
def infoA : PinInfo := { cid := "cidA", peer := "peerA", status := 4 }

/-- A second sample local status record used by concrete witnesses. -/
def infoB : PinInfo := { cid := "cidB", peer := "peerB", status := 2 }

/-- A sample local GC result used by concrete witnesses. -/
def gcA : RepoGC := { peer := "peerA", keys := ["k1", "k2"] }

/-- A sample global GC result used by concrete witnesses. -/
def gGC : GlobalRepoGC := { peerMap := [("peerA", gcA)] }

/-- Any bit of a fold of ORs is set exactly when the accumulator has it or
some list element's lookup has it. -/
theorem foldl_or_testBit (g : String → Nat) (l : List String) (acc i : Nat) :
    (l.foldl (fun a f => a ||| g f) acc).testBit i =
      (acc.testBit i || l.any (fun t => (g t).testBit i)) := by
  induction l generalizing acc with
  | nil => simp
  | cons x xs ih => simp [ih, Nat.testBit_or, Bool.or_assoc]

/-- The empty status-filter string parses to the undefined mask. -/
theorem trackerStatus_empty : TrackerStatusFromString "" = TrackerStatusUndefined := by
  decide

/-- C3: the type-filter application returns the list unchanged on the all
mask; on any other mask it returns an order-preserving sublist of at most the
input length holding exactly the pins whose type bit meets the mask. -/
theorem type_filter_application_spec (M : Nat) (L : List Pin) (h : M ≠ AllType) :
    filterPins AllType L = L ∧
    (filterPins M L).Sublist L ∧
    (filterPins M L).length ≤ L.length ∧
    (∀ p, p ∈ filterPins M L ↔ p ∈ L ∧ M &&& p.ptype > 0) := by
  refine ⟨by simp [filterPins], ?_, ?_, ?_⟩
  · rw [filterPins, if_neg h]
    exact List.filter_sublist L
  · rw [filterPins, if_neg h]
    exact List.length_filter_le _ L
  · intro p
    rw [filterPins, if_neg h]
    simp [List.mem_filter]

/-- Witness for C3 at the data mask over the sample pin list. -/
theorem type_filter_application_spec_witness :
    DataType ≠ AllType ∧
    (filterPins DataType samplePins).Sublist samplePins :=
  ⟨by decide, (type_filter_application_spec DataType samplePins (by decide)).2.1⟩

/-- C5 counterexample: the token "bogus" alone looks up to the bad sentinel,
yet the composed filter "bogus,data" is not the sentinel, so the handler does
not reject it and issues the remote call. -/
theorem bad_token_mix_not_rejected :
    PinTypeFromString "bogus" = BadType ∧
    typeFilterOfString "bogus,data" ≠ BadType ∧
    (allocationsHandler (fun k => if k = "filter" then "bogus,data" else "")
      (none, samplePins)).resp.status ≠ 400 ∧
    (allocationsHandler (fun k => if k = "filter" then "bogus,data" else "")
      (none, samplePins)).calls = ["Pins"] := by
  decide

/-- C5 (amended): the type filter splits on commas, looks each token up and
ORs the results; the empty string yields the all mask and is not an error; the
allocations handler rejects as invalid input, with no remote call, exactly
when the composed mask equals the bad sentinel (a bad token OR-ed together
with valid tokens is accepted). -/
theorem parse_type_filter_amended (q : String → String) (rpc : Option String × List Pin) :
    typeFilterOfString "" = AllType ∧
    (((allocationsHandler q rpc).resp.status = 400 ∧ (allocationsHandler q rpc).calls = []) ↔
      typeFilterOfString (q "filter") = BadType) := by
  refine ⟨by decide, ?_⟩
  by_cases hb : typeFilterOfString (q "filter") = BadType
  · simp [allocationsHandler, hb, sendResponse]
  · obtain ⟨e, pins⟩ := rpc
    cases e <;> simp [allocationsHandler, hb, sendResponse, autoStatus]

/-- C8: the composed type mask only depends on the set of comma-separated
tokens: it is invariant under reordering and duplication. -/
theorem type_filter_token_set_invariant (s₁ s₂ : String)
    (_hvalid : ∀ t ∈ splitComma s₁, PinTypeFromString t ≠ BadType)
    (hset : (splitComma s₁).toFinset = (splitComma s₂).toFinset) :
    typeFilterOfString s₁ = typeFilterOfString s₂ := by
  have hmem : ∀ a : String, a ∈ splitComma s₁ ↔ a ∈ splitComma s₂ := by
    intro a
    rw [← List.mem_toFinset, hset, List.mem_toFinset]
  apply Nat.eq_of_testBit_eq
  intro i
  rw [typeFilterOfString, typeFilterOfString, foldl_or_testBit, foldl_or_testBit]
  have hany : (splitComma s₁).any (fun t => (PinTypeFromString t).testBit i) =
      (splitComma s₂).any (fun t => (PinTypeFromString t).testBit i) := by
    cases h1 : (splitComma s₁).any (fun t => (PinTypeFromString t).testBit i) <;>
      cases h2 : (splitComma s₂).any (fun t => (PinTypeFromString t).testBit i) <;>
        simp_all [List.any_eq_true, List.any_eq_false, hmem]
    · obtain ⟨x, hx, hpx⟩ := h2
      simp [h1 x hx] at hpx
    · obtain ⟨x, hx, hpx⟩ := h1
      simp [h2 x hx] at hpx
  rw [hany]

/-- Witness for C8: duplicating and reordering the valid tokens of
"data,meta,data" leaves the mask unchanged. -/
theorem type_filter_token_set_invariant_witness :
    (∀ t ∈ splitComma "data,meta,data", PinTypeFromString t ≠ BadType) ∧
    (splitComma "data,meta,data").toFinset = (splitComma "meta,data").toFinset ∧
    typeFilterOfString "data,meta,data" = typeFilterOfString "meta,data" :=
  ⟨by decide, by decide,
    type_filter_token_set_invariant "data,meta,data" "meta,data" (by decide) (by decide)⟩

/-- C1: a malformed peer-add body, an undecodable peer identifier, a bad type
filter and a non-empty status filter parsing to the undefined mask are each
answered 400 with no remote call issued. -/
theorem invalid_input_no_rpc
    (decodePeer : String → Option String) (s : String)
    (rpcId : Option String × String)
    (qa : String → String) (rpcPins : Option String × List Pin)
    (qs : String → String)
    (rpcL : Option String × List PinInfo) (rpcG : Option String × List GlobalPinInfo)
    (hp : decodePeer s = none)
    (ht : typeFilterOfString (qa "filter") = BadType)
    (hs : TrackerStatusFromString (qs "filter") = TrackerStatusUndefined)
    (hs2 : qs "filter" ≠ "") :
    ((peerAddHandler none decodePeer rpcId).resp.status = 400 ∧
      (peerAddHandler none decodePeer rpcId).calls = []) ∧
    ((peerAddHandler (some s) decodePeer rpcId).resp.status = 400 ∧
      (peerAddHandler (some s) decodePeer rpcId).calls = []) ∧
    ((allocationsHandler qa rpcPins).resp.status = 400 ∧
      (allocationsHandler qa rpcPins).calls = []) ∧
    ((statusAllHandler qs rpcL rpcG).resp.status = 400 ∧
      (statusAllHandler qs rpcL rpcG).calls = []) := by
  refine ⟨by simp [peerAddHandler, sendResponse], ?_, ?_, ?_⟩
  · simp [peerAddHandler, hp, sendResponse]
  · simp [allocationsHandler, ht, sendResponse]
  · simp [statusAllHandler, hs, hs2, sendResponse]

/-- Witness for C1 at a failing decoder, the token "bogus" and the status
token "nope". -/
theorem invalid_input_no_rpc_witness :
    ((fun _ : String => (none : Option String)) "badpeer" = none) ∧
    typeFilterOfString ((fun k : String => if k = "filter" then "bogus" else "") "filter") = BadType ∧
    TrackerStatusFromString ((fun k : String => if k = "filter" then "nope" else "") "filter") = TrackerStatusUndefined ∧
    ((fun k : String => if k = "filter" then "nope" else "") "filter" ≠ "") ∧
    ((statusAllHandler (fun k => if k = "filter" then "nope" else "")
        ((none : Option String), ([] : List PinInfo))
        ((none : Option String), ([] : List GlobalPinInfo))).resp.status = 400 ∧
      (statusAllHandler (fun k => if k = "filter" then "nope" else "")
        ((none : Option String), ([] : List PinInfo))
        ((none : Option String), ([] : List GlobalPinInfo))).calls = []) :=
  ⟨rfl, by decide, by decide, by decide,
    (invalid_input_no_rpc (fun _ => none) "badpeer" (none, "")
      (fun k => if k = "filter" then "bogus" else "") (none, [])
      (fun k => if k = "filter" then "nope" else "") (none, []) (none, [])
      rfl (by decide) (by decide) (by decide)).2.2.2⟩

/-- C2 counterexample: the backend reports the not-found condition with
different casing than the sentinel; the verbatim string comparison fails and
the unpin response is the automatic 500, not 404. -/
theorem unpin_notfound_case_variant_not_404 :
    errNotFoundMsg = "not found" ∧
    (unpinHandler (some pinD) (some "Not Found", pinD)).resp.status = 500 ∧
    (unpinHandler (some pinD) (some "Not Found", pinD)).resp.status ≠ 404 := by
  decide

/-- C2 (amended): unpin and unpin-by-path answer 404 exactly when the backend
error text equals the not-found sentinel verbatim; any other wording or casing
takes the automatic error path instead. -/
theorem unpin_404_iff_sentinel (c : Pin) (pp : PinPath) (e : String) (outp : Pin) :
    ((unpinHandler (some c) (some e, outp)).resp.status = 404 ↔ e = errNotFoundMsg) ∧
    ((unpinPathHandler (some pp) (some e, outp)).resp.status = 404 ↔ e = errNotFoundMsg) := by
  by_cases he : e = errNotFoundMsg <;>
    simp [unpinHandler, unpinPathHandler, he, sendResponse, autoStatus]

/-- C4 counterexample: the GC handler reads no filter parameter: two requests
differing only in a restrictive type filter produce identical outcomes, and
the result set is forwarded unfiltered. -/
theorem repogc_applies_no_filter :
    (repoGCHandler (fun k => if k = "filter" then "data" else "") (none, gcA) (none, gGC)) =
      (repoGCHandler (fun k => if k = "filter" then "meta" else "") (none, gcA) (none, gGC)) ∧
    (repoGCHandler (fun k => if k = "filter" then "data" else "")
      (none, gcA) (none, gGC)).resp.body = some gGC := by
  decide

/-- C4 (amended): the allocations handler applies the type filter to the
result set before shaping and forwards the remote error to shaping untouched
by the filtering; the GC handler applies no filter and forwards its result as
received. -/
theorem allocations_filters_gc_does_not
    (q : String → String) (rpc : Option String × List Pin)
    (qg : String → String) (rL : Option String × RepoGC) (rG : Option String × GlobalRepoGC)
    (hv : typeFilterOfString (q "filter") ≠ BadType) :
    (allocationsHandler q rpc).resp.body =
      some (filterPins (typeFilterOfString (q "filter")) rpc.2) ∧
    (allocationsHandler q rpc).resp.rerr = rpc.1 ∧
    (allocationsHandler q rpc).resp.status = autoStatus rpc.1 ∧
    (repoGCHandler qg rL rG).resp.body =
      (if qg "local" = "true" then some (repoGCToGlobal rL.2) else some rG.2) ∧
    (repoGCHandler qg rL rG).resp.rerr = (if qg "local" = "true" then rL.1 else rG.1) := by
  refine ⟨?_, ?_, ?_, ?_, ?_⟩ <;>
    by_cases hl : qg "local" = "true" <;>
      simp [allocationsHandler, repoGCHandler, hv, hl, sendResponse]

/-- Witness for C4 (amended) at the filter "data" over the sample pins. -/
theorem allocations_filters_gc_does_not_witness :
    typeFilterOfString ((fun k : String => if k = "filter" then "data" else "") "filter") ≠ BadType ∧
    (allocationsHandler (fun k => if k = "filter" then "data" else "")
      ((none : Option String), samplePins)).resp.body =
      some (filterPins (typeFilterOfString ((fun k : String => if k = "filter" then "data" else "") "filter"))
        ((none : Option String), samplePins).2) :=
  ⟨by decide,
    (allocations_filters_gc_does_not (fun k => if k = "filter" then "data" else "")
      (none, samplePins) (fun _ => "") (none, gcA) (none, gGC) (by decide)).1⟩

/-- C6: local results are always unified into the global shape: a local GC
result becomes a one-entry map keyed by the responding peer's identifier, and
a list of local status records maps elementwise, preserving length and order,
to one-entry global records keyed by each record's own peer. -/
theorem local_to_global_shape (r : RepoGC) (l : List PinInfo) (i : Nat) :
    (repoGCToGlobal r).peerMap = [(r.peer, r)] ∧
    (pinInfosToGlobal l).length = l.length ∧
    (pinInfosToGlobal l)[i]? = (l[i]?).map PinInfo.toGlobal ∧
    (∀ p ∈ l, (PinInfo.toGlobal p).peerMap = [(p.peer, p)]) := by
  refine ⟨rfl, by simp [pinInfosToGlobal], ?_, fun p _ => rfl⟩
  simp [pinInfosToGlobal, List.getElem?_map]

/-- Witness for C6 over the sample GC result and status records. -/
theorem local_to_global_shape_witness :
    (repoGCToGlobal gcA).peerMap = [(gcA.peer, gcA)] ∧
    (pinInfosToGlobal [infoA, infoB]).length = [infoA, infoB].length :=
  ⟨(local_to_global_shape gcA [infoA, infoB] 0).1,
    (local_to_global_shape gcA [infoA, infoB] 0).2.1⟩

/-- C7: an empty status-filter string is not an error: the undefined mask it
parses to is passed as given to the one remote call; a non-empty string
parsing to the undefined mask is answered 400 with no remote call. -/
theorem status_filter_empty_vs_invalid
    (q1 q2 : String → String)
    (rpcL1 rpcL2 : Option String × List PinInfo)
    (rpcG1 rpcG2 : Option String × List GlobalPinInfo)
    (h1 : q1 "filter" = "")
    (h2 : TrackerStatusFromString (q2 "filter") = TrackerStatusUndefined)
    (h3 : q2 "filter" ≠ "") :
    ((statusAllHandler q1 rpcL1 rpcG1).resp.status ≠ 400 ∧
      (statusAllHandler q1 rpcL1 rpcG1).calls.map Prod.snd = [TrackerStatusUndefined]) ∧
    ((statusAllHandler q2 rpcL2 rpcG2).resp.status = 400 ∧
      (statusAllHandler q2 rpcL2 rpcG2).calls = []) := by
  obtain ⟨e1, l1⟩ := rpcL1
  obtain ⟨e2, g1⟩ := rpcG1
  refine ⟨?_, ?_⟩
  · by_cases hl : q1 "local" = "true" <;> cases e1 <;> cases e2 <;>
      simp [statusAllHandler, h1, hl, trackerStatus_empty, sendResponse, autoStatus]
  · simp [statusAllHandler, h2, h3, sendResponse]

/-- Witness for C7 at the empty filter and the status token "nope". -/
theorem status_filter_empty_vs_invalid_witness :
    ((fun _ : String => "") "filter" = "") ∧
    TrackerStatusFromString ((fun k : String => if k = "filter" then "nope" else "") "filter") = TrackerStatusUndefined ∧
    ((fun k : String => if k = "filter" then "nope" else "") "filter" ≠ "") ∧
    ((statusAllHandler (fun _ => "") ((none : Option String), ([] : List PinInfo))
        ((none : Option String), ([] : List GlobalPinInfo))).resp.status ≠ 400 ∧
      (statusAllHandler (fun _ => "") ((none : Option String), ([] : List PinInfo))
        ((none : Option String), ([] : List GlobalPinInfo))).calls.map Prod.snd =
        [TrackerStatusUndefined]) :=
  ⟨rfl, by decide, by decide,
    (status_filter_empty_vs_invalid (fun _ => "")
      (fun k => if k = "filter" then "nope" else "")
      (none, []) (none, []) (none, []) (none, [])
      rfl (by decide) (by decide)).1⟩

/-- C9: the single-allocation query answers every remote-call error 404, and
on success the automatic path is taken with a nil error, so the response is
the pin record with status 200. -/
theorem allocation_all_errors_404 (c : Pin) (e : String) (outp : Pin) (okp : Pin) :
    ((allocationHandler (some c) (some e, outp)).resp.status = 404) ∧
    ((allocationHandler (some c) (some e, outp)).resp.body = none) ∧
    ((allocationHandler (some c) (none, okp)).resp =
      { status := 200, rerr := none, body := some okp }) := by
  simp [allocationHandler, sendResponse, autoStatus]

/-- C10: every operation offering the local/global choice selects the
node-scoped method exactly when the local query parameter is the literal
"true"; any other value selects the cluster-wide method. -/
theorem local_flag_selects_method (loc : String) (c : Pin)
    (saL : Option String × List PinInfo) (saG : Option String × List GlobalPinInfo)
    (stL : Option String × PinInfo) (stG : Option String × GlobalPinInfo)
    (reL : Option String × PinInfo) (reG : Option String × GlobalPinInfo)
    (raL : Option String × List PinInfo) (raG : Option String × List GlobalPinInfo)
    (gcL : Option String × RepoGC) (gcG : Option String × GlobalRepoGC) :
    ((statusAllHandler (fun k => if k = "local" then loc else "") saL saG).calls.map Prod.fst =
      [if loc = "true" then "StatusAllLocal" else "StatusAll"]) ∧
    ((statusHandler (fun k => if k = "local" then loc else "") (some c) stL stG).calls =
      [if loc = "true" then "StatusLocal" else "Status"]) ∧
    ((recoverHandler (fun k => if k = "local" then loc else "") (some c) reL reG).calls =
      [if loc = "true" then "RecoverLocal" else "Recover"]) ∧
    ((recoverAllHandler (fun k => if k = "local" then loc else "") raL raG).calls =
      [if loc = "true" then "RecoverAllLocal" else "RecoverAll"]) ∧
    ((repoGCHandler (fun k => if k = "local" then loc else "") gcL gcG).calls =
      [if loc = "true" then "RepoGCLocal" else "RepoGC"]) := by
  obtain ⟨e1, v1⟩ := saL
  obtain ⟨e2, v2⟩ := saG
  by_cases hl : loc = "true" <;> cases e1 <;> cases e2 <;>
    simp [statusAllHandler, statusHandler, recoverHandler, recoverAllHandler,
      repoGCHandler, hl, sendResponse]

/-- Witness for C10: the flag value "True" selects the cluster-wide GC method
while the literal "true" selects the node-scoped one. -/
theorem local_flag_selects_method_witness :
    ((repoGCHandler (fun k => if k = "local" then "True" else "")
      ((none : Option String), gcA) ((none : Option String), gGC)).calls = ["RepoGC"]) ∧
    ((repoGCHandler (fun k => if k = "local" then "true" else "")
      ((none : Option String), gcA) ((none : Option String), gGC)).calls = ["RepoGCLocal"]) :=
  ⟨(local_flag_selects_method "True" pinD (none, []) (none, [])
      (none, infoA) (none, infoA.toGlobal) (none, infoA) (none, infoA.toGlobal)
      (none, []) (none, []) (none, gcA) (none, gGC)).2.2.2.2,
    (local_flag_selects_method "true" pinD (none, []) (none, [])
      (none, infoA) (none, infoA.toGlobal) (none, infoA) (none, infoA.toGlobal)
      (none, []) (none, []) (none, gcA) (none, gGC)).2.2.2.2⟩

end RestApi
